import Mathlib

/-!
The header kdbus.h: constants, record layouts and request codes.

A shallow embedding of the kdbus userspace/kernel interface header `kdbus.h`.

* Enumerators are natural numbers, defined the way the C enumeration defines
  them: an enumerator without an initialiser is its predecessor plus one, the
  first one is zero.
* `x << k` is `x <<< k`, `a | b` is `a ||| b`, and `~0ULL` is the complement of
  zero in 64 bits.
* A `struct` is the list of its members, each with the size and alignment of its
  C type (`__u64` 8/8, `__u32` and `int` 4/4, `__u8` and `char` 1/1, data
  pointers 8/8); sizes and offsets are computed from those lists.
* The request codes are built with the `_IOC` family of `<sys/ioctl.h>`.
-/

namespace Kdbus

/-! ## Fixed ids (kdbus.h lines 23-27) -/

/-- The complement `~x` of an `unsigned long long`. -/
def not64 (x : Nat) : Nat := 2 ^ 64 - 1 - x % 2 ^ 64

def KDBUS_IOC_MAGIC : Nat := 0x95
def KDBUS_SRC_ID_KERNEL : Nat := 0
def KDBUS_DST_ID_WELL_KNOWN_NAME : Nat := 0
def KDBUS_MATCH_SRC_ID_ANY : Nat := not64 0
def KDBUS_DST_ID_BROADCAST : Nat := not64 0

/-- The three ways `kdbus_msg.dst_id` addresses a message
("connection, 0 == name in data, ~0 broadcast"). -/
inductive DstKind where
  | wellKnownName
  | broadcast
  | connection (id : Nat)
  deriving DecidableEq, Repr

/-- Reading of a `dst_id` value against the two sentinels. -/
def dstKind (dst_id : Nat) : DstKind :=
  if dst_id = KDBUS_DST_ID_WELL_KNOWN_NAME then DstKind.wellKnownName
  else if dst_id = KDBUS_DST_ID_BROADCAST then DstKind.broadcast
  else DstKind.connection dst_id

/-! ## Message item types (kdbus.h lines 89-129) -/

def _KDBUS_ITEM_NULL : Nat := 0

/- Filled in by userspace -/
def _KDBUS_ITEM_USER_BASE : Nat := 1
def KDBUS_ITEM_PAYLOAD_VEC : Nat := 1
def KDBUS_ITEM_PAYLOAD_OFF : Nat := KDBUS_ITEM_PAYLOAD_VEC + 1
def KDBUS_ITEM_PAYLOAD_MEMFD : Nat := KDBUS_ITEM_PAYLOAD_OFF + 1
def KDBUS_ITEM_FDS : Nat := KDBUS_ITEM_PAYLOAD_MEMFD + 1
def KDBUS_ITEM_BLOOM : Nat := KDBUS_ITEM_FDS + 1
def KDBUS_ITEM_DST_NAME : Nat := KDBUS_ITEM_BLOOM + 1
def KDBUS_ITEM_PRIORITY : Nat := KDBUS_ITEM_DST_NAME + 1

/- Filled in by kernelspace -/
def _KDBUS_ITEM_ATTACH_BASE : Nat := 0x400
def KDBUS_ITEM_NAMES : Nat := 0x400
def KDBUS_ITEM_STARTER_NAME : Nat := KDBUS_ITEM_NAMES + 1
def KDBUS_ITEM_TIMESTAMP : Nat := KDBUS_ITEM_STARTER_NAME + 1
def KDBUS_ITEM_CREDS : Nat := KDBUS_ITEM_TIMESTAMP + 1
def KDBUS_ITEM_PID_COMM : Nat := KDBUS_ITEM_CREDS + 1
def KDBUS_ITEM_TID_COMM : Nat := KDBUS_ITEM_PID_COMM + 1
def KDBUS_ITEM_EXE : Nat := KDBUS_ITEM_TID_COMM + 1
def KDBUS_ITEM_CMDLINE : Nat := KDBUS_ITEM_EXE + 1
def KDBUS_ITEM_CGROUP : Nat := KDBUS_ITEM_CMDLINE + 1
def KDBUS_ITEM_CAPS : Nat := KDBUS_ITEM_CGROUP + 1
def KDBUS_ITEM_SECLABEL : Nat := KDBUS_ITEM_CAPS + 1
def KDBUS_ITEM_AUDIT : Nat := KDBUS_ITEM_SECLABEL + 1

/- Special messages from kernel -/
def _KDBUS_ITEM_KERNEL_BASE : Nat := 0x800
def KDBUS_ITEM_NAME_ADD : Nat := 0x800
def KDBUS_ITEM_NAME_REMOVE : Nat := KDBUS_ITEM_NAME_ADD + 1
def KDBUS_ITEM_NAME_CHANGE : Nat := KDBUS_ITEM_NAME_REMOVE + 1
def KDBUS_ITEM_ID_ADD : Nat := KDBUS_ITEM_NAME_CHANGE + 1
def KDBUS_ITEM_ID_REMOVE : Nat := KDBUS_ITEM_ID_ADD + 1
def KDBUS_ITEM_REPLY_TIMEOUT : Nat := KDBUS_ITEM_ID_REMOVE + 1
def KDBUS_ITEM_REPLY_DEAD : Nat := KDBUS_ITEM_REPLY_TIMEOUT + 1

/-- The enumerators declared under "Filled in by userspace", in order. -/
def userItemTypes : List Nat :=
  [KDBUS_ITEM_PAYLOAD_VEC, KDBUS_ITEM_PAYLOAD_OFF, KDBUS_ITEM_PAYLOAD_MEMFD, KDBUS_ITEM_FDS,
   KDBUS_ITEM_BLOOM, KDBUS_ITEM_DST_NAME, KDBUS_ITEM_PRIORITY]

/-- The enumerators declared under "Filled in by kernelspace", in order. -/
def attachItemTypes : List Nat :=
  [KDBUS_ITEM_NAMES, KDBUS_ITEM_STARTER_NAME, KDBUS_ITEM_TIMESTAMP, KDBUS_ITEM_CREDS,
   KDBUS_ITEM_PID_COMM, KDBUS_ITEM_TID_COMM, KDBUS_ITEM_EXE, KDBUS_ITEM_CMDLINE,
   KDBUS_ITEM_CGROUP, KDBUS_ITEM_CAPS, KDBUS_ITEM_SECLABEL, KDBUS_ITEM_AUDIT]

/-- The enumerators declared under "Special messages from kernel", in order. -/
def kernelItemTypes : List Nat :=
  [KDBUS_ITEM_NAME_ADD, KDBUS_ITEM_NAME_REMOVE, KDBUS_ITEM_NAME_CHANGE, KDBUS_ITEM_ID_ADD,
   KDBUS_ITEM_ID_REMOVE, KDBUS_ITEM_REPLY_TIMEOUT, KDBUS_ITEM_REPLY_DEAD]

/-- The group of an item type. -/
inductive ItemGroup where
  | null
  | user
  | attach
  | kernel
  deriving DecidableEq, Repr

/-- Classification of an item type value by the three `_BASE` thresholds. -/
def itemGroup (type : Nat) : ItemGroup :=
  if type < _KDBUS_ITEM_USER_BASE then ItemGroup.null
  else if type < _KDBUS_ITEM_ATTACH_BASE then ItemGroup.user
  else if type < _KDBUS_ITEM_KERNEL_BASE then ItemGroup.attach
  else ItemGroup.kernel

/-! ## Payload types (kdbus.h lines 170-174) -/

def KDBUS_PAYLOAD_KERNEL : Nat := 0
def KDBUS_PAYLOAD_DBUS1 : Nat := 0x4442757356657231
def KDBUS_PAYLOAD_GVARIANT : Nat := 0x4756617269616e74

/-- The big-endian integer spelled by the bytes of an ASCII string. -/
def asciiBE (s : String) : Nat :=
  s.toList.foldl (fun acc c => acc * 256 + c.toNat) 0

/-! ## Flag enumerations -/

/- kdbus.h lines 165-168 -/
def KDBUS_MSG_FLAGS_EXPECT_REPLY : Nat := 1 <<< 0
def KDBUS_MSG_FLAGS_NO_AUTO_START : Nat := 1 <<< 1

/- kdbus.h lines 203-207 -/
def KDBUS_POLICY_RECV : Nat := 1 <<< 2
def KDBUS_POLICY_SEND : Nat := 1 <<< 1
def KDBUS_POLICY_OWN : Nat := 1 <<< 0

/- Flags for struct kdbus_cmd_hello -/
def KDBUS_HELLO_STARTER : Nat := 1 <<< 0
def KDBUS_HELLO_ACCEPT_FD : Nat := 1 <<< 1

/- Flags for message attachments -/
def KDBUS_ATTACH_TIMESTAMP : Nat := 1 <<< 0
def KDBUS_ATTACH_CREDS : Nat := 1 <<< 1
def KDBUS_ATTACH_NAMES : Nat := 1 <<< 2
def KDBUS_ATTACH_COMM : Nat := 1 <<< 3
def KDBUS_ATTACH_EXE : Nat := 1 <<< 4
def KDBUS_ATTACH_CMDLINE : Nat := 1 <<< 5
def KDBUS_ATTACH_CGROUP : Nat := 1 <<< 6
def KDBUS_ATTACH_CAPS : Nat := 1 <<< 7
def KDBUS_ATTACH_SECLABEL : Nat := 1 <<< 8
def KDBUS_ATTACH_AUDIT : Nat := 1 <<< 9

/- Flags for kdbus_cmd_{bus,ep,ns}_make -/
def KDBUS_MAKE_ACCESS_GROUP : Nat := 1 <<< 0
def KDBUS_MAKE_ACCESS_WORLD : Nat := 1 <<< 1
def KDBUS_MAKE_POLICY_OPEN : Nat := 1 <<< 2

/- kdbus.h lines 333-341; the first three go userspace → kernel, the last kernel → userspace -/
def KDBUS_NAME_REPLACE_EXISTING : Nat := 1 <<< 0
def KDBUS_NAME_QUEUE : Nat := 1 <<< 1
def KDBUS_NAME_ALLOW_REPLACEMENT : Nat := 1 <<< 2
def KDBUS_NAME_IN_QUEUE : Nat := 1 <<< 16

/- KDBUS_CMD_NAME_LIST -/
def KDBUS_NAME_LIST_UNIQUE_NAMES : Nat := 1 <<< 0

/- KDBUS_CMD_MONITOR -/
def KDBUS_MONITOR_ENABLE : Nat := 1 <<< 0

def msgFlags : List Nat := [KDBUS_MSG_FLAGS_EXPECT_REPLY, KDBUS_MSG_FLAGS_NO_AUTO_START]
def policyFlags : List Nat := [KDBUS_POLICY_RECV, KDBUS_POLICY_SEND, KDBUS_POLICY_OWN]
def helloFlags : List Nat := [KDBUS_HELLO_STARTER, KDBUS_HELLO_ACCEPT_FD]
def attachFlags : List Nat :=
  [KDBUS_ATTACH_TIMESTAMP, KDBUS_ATTACH_CREDS, KDBUS_ATTACH_NAMES, KDBUS_ATTACH_COMM,
   KDBUS_ATTACH_EXE, KDBUS_ATTACH_CMDLINE, KDBUS_ATTACH_CGROUP, KDBUS_ATTACH_CAPS,
   KDBUS_ATTACH_SECLABEL, KDBUS_ATTACH_AUDIT]
def makeFlags : List Nat :=
  [KDBUS_MAKE_ACCESS_GROUP, KDBUS_MAKE_ACCESS_WORLD, KDBUS_MAKE_POLICY_OPEN]
def nameRequestFlags : List Nat :=
  [KDBUS_NAME_REPLACE_EXISTING, KDBUS_NAME_QUEUE, KDBUS_NAME_ALLOW_REPLACEMENT]
def nameFlags : List Nat := nameRequestFlags ++ [KDBUS_NAME_IN_QUEUE]
def nameListFlags : List Nat := [KDBUS_NAME_LIST_UNIQUE_NAMES]
def monitorFlags : List Nat := [KDBUS_MONITOR_ENABLE]

/-- The flag enumerations of the header, one list of constants each. -/
def flagEnums : List (List Nat) :=
  [msgFlags, policyFlags, helloFlags, attachFlags, makeFlags, nameFlags, nameListFlags,
   monitorFlags]

/-- The mask of a set of flags: all of them OR-ed together. -/
def orMask (flags : Finset Nat) : Nat := flags.fold (fun a b => a ||| b) 0 id

/-- The flags of enumeration `E` that are set in `mask`. -/
def flagsIn (E : List Nat) (mask : Nat) : Finset Nat :=
  (E.filter (fun v => mask &&& v ≠ 0)).toFinset

/-! ## Record layouts -/

/-- The C types the header's records are built from. A member is a name and a
type; an anonymous member (the `KDBUS_PART_HEADER` struct, the unnamed unions)
has the empty name. -/
inductive CType where
  | __u8
  | __u32
  | __u64
  | char
  | int
  | pointer
  | array (elem : CType) (len : Nat)
  | struct (members : List (String × CType))
  | union (members : List (String × CType))

/-- The offset `off` rounded up to the next multiple of `a`. -/
def alignUp (off a : Nat) : Nat := (off + a - 1) / a * a

/-- Where a member of alignment `a` goes when the running offset is `off`:
rounded up to its alignment when the layout pads (`pad = true`, what the
compiler does), at `off` itself when members are laid out back to back. -/
def place (pad : Bool) (off a : Nat) : Nat := if pad then alignUp off a else off

mutual
/-- Natural alignment of a type: its size for a scalar, that of the element for
an array, the largest alignment among the members for a struct or union. -/
def alignof : CType → Nat
  | CType.__u8 => 1
  | CType.__u32 => 4
  | CType.__u64 => 8
  | CType.char => 1
  | CType.int => 4
  | CType.pointer => 8
  | CType.array elem _ => alignof elem
  | CType.struct ms => alignofMembers ms
  | CType.union ms => alignofMembers ms
/-- Largest alignment among the members. -/
def alignofMembers : List (String × CType) → Nat
  | [] => 1
  | (_, t) :: ms => max (alignof t) (alignofMembers ms)
end

mutual
/-- Size of a type. With `pad = true` members are aligned and the total is
rounded up to the alignment of the record (`sizeof`); with `pad = false` the
members follow each other back to back and a union has the size of its largest
member. -/
def sizeWith (pad : Bool) : CType → Nat
  | CType.__u8 => 1
  | CType.__u32 => 4
  | CType.__u64 => 8
  | CType.char => 1
  | CType.int => 4
  | CType.pointer => 8
  | CType.array elem len => sizeWith pad elem * len
  | CType.struct ms => place pad (structEnd pad 0 ms) (alignofMembers ms)
  | CType.union ms => place pad (unionMax pad ms) (alignofMembers ms)
/-- Offset just past the last member of a struct whose next member would start
at `off`. -/
def structEnd (pad : Bool) : Nat → List (String × CType) → Nat
  | off, [] => off
  | off, (_, t) :: ms => structEnd pad (place pad off (alignof t) + sizeWith pad t) ms
/-- Size of the largest member of a union. -/
def unionMax (pad : Bool) : List (String × CType) → Nat
  | [] => 0
  | (_, t) :: ms => max (sizeWith pad t) (unionMax pad ms)
end

/-- The `sizeof` of a type. -/
def sizeof (t : CType) : Nat := sizeWith true t

/-- Size of a type with its members laid out back to back. -/
def packedSize (t : CType) : Nat := sizeWith false t

/-- A member of a record together with the offset it is found at. -/
structure Field where
  name : String
  offset : Nat
  type : CType

mutual
/-- The members of a record that starts at offset `base`, in declaration
order. The members of an anonymous member are members of the enclosing record
too, and are listed right after it. -/
def membersAt (pad : Bool) (base : Nat) : CType → List Field
  | CType.struct ms => structFields pad base 0 ms
  | CType.union ms => unionFields pad base ms
  | _ => []
/-- Members of a struct: each one placed after its predecessor. -/
def structFields (pad : Bool) (base : Nat) : Nat → List (String × CType) → List Field
  | _, [] => []
  | off, (n, t) :: ms =>
    Field.mk n (base + place pad off (alignof t)) t ::
      ((if n = "" then membersAt pad (base + place pad off (alignof t)) t else []) ++
        structFields pad base (place pad off (alignof t) + sizeWith pad t) ms)
/-- Members of a union: all of them at the start of the union. -/
def unionFields (pad : Bool) (base : Nat) : List (String × CType) → List Field
  | [] => []
  | (n, t) :: ms =>
    Field.mk n base t :: ((if n = "" then membersAt pad base t else []) ++ unionFields pad base ms)
end

/-- The members of a record as the compiler lays them out. -/
def fields (t : CType) : List Field := membersAt true 0 t

/-- The members of a record laid out back to back. -/
def packedFields (t : CType) : List Field := membersAt false 0 t

/-- Names and offsets of a list of members. -/
def offsetsOf (fs : List Field) : List (String × Nat) := fs.map (fun f => (f.name, f.offset))

/-- The `offsetof` of a member, `none` when the record has no such member. -/
def offsetof (t : CType) (member : String) : Option Nat :=
  ((fields t).find? (fun f => f.name = member)).map (fun f => f.offset)

/-- The size of a member, `none` when the record has no such member. -/
def sizeofMember (t : CType) (member : String) : Option Nat :=
  ((fields t).find? (fun f => f.name = member)).map (fun f => sizeof f.type)

/-- Whether a type is a zero-length array `T x[0]`. -/
def isZeroLengthArray : CType → Bool
  | CType.array _ 0 => true
  | _ => false

/-! ## The records of the header -/

/-- The macro `KDBUS_PART_HEADER`: the common first elements of a record that
is iterated over in a list. -/
def KDBUS_PART_HEADER : CType :=
  CType.struct [("size", CType.__u64), ("type", CType.__u64)]

def kdbus_notify_name_change : CType :=
  CType.struct [("old_id", CType.__u64), ("new_id", CType.__u64), ("flags", CType.__u64),
    ("name", CType.array CType.char 0)]

def kdbus_notify_id_change : CType :=
  CType.struct [("id", CType.__u64), ("flags", CType.__u64)]

def kdbus_creds : CType :=
  CType.struct [("uid", CType.__u64), ("gid", CType.__u64), ("pid", CType.__u64),
    ("tid", CType.__u64), ("starttime", CType.__u64)]

def kdbus_audit : CType :=
  CType.struct [("sessionid", CType.__u64), ("loginuid", CType.__u64)]

def kdbus_timestamp : CType :=
  CType.struct [("monotonic_ns", CType.__u64), ("realtime_ns", CType.__u64)]

def kdbus_vec : CType :=
  CType.struct [("size", CType.__u64),
    ("", CType.union [("address", CType.__u64), ("offset", CType.__u64)])]

def kdbus_memfd : CType :=
  CType.struct [("size", CType.__u64), ("fd", CType.int), ("__pad", CType.__u32)]

def kdbus_item : CType :=
  CType.struct [("", KDBUS_PART_HEADER),
    ("", CType.union [
      ("data", CType.array CType.__u8 0),
      ("data32", CType.array CType.__u32 0),
      ("data64", CType.array CType.__u64 0),
      ("str", CType.array CType.char 0),
      ("id", CType.__u64),
      ("vec", kdbus_vec),
      ("creds", kdbus_creds),
      ("audit", kdbus_audit),
      ("timestamp", kdbus_timestamp),
      ("memfd", kdbus_memfd),
      ("fds", CType.array CType.int 0),
      ("name_change", kdbus_notify_name_change),
      ("id_change", kdbus_notify_id_change)])]

def kdbus_msg : CType :=
  CType.struct [("size", CType.__u64), ("flags", CType.__u64), ("dst_id", CType.__u64),
    ("src_id", CType.__u64), ("payload_type", CType.__u64), ("cookie", CType.__u64),
    ("", CType.union [("cookie_reply", CType.__u64), ("timeout_ns", CType.__u64)]),
    ("items", CType.array kdbus_item 0)]

def kdbus_policy_access : CType :=
  CType.struct [("type", CType.__u64), ("bits", CType.__u64), ("id", CType.__u64)]

def kdbus_policy : CType :=
  CType.struct [("", KDBUS_PART_HEADER),
    ("", CType.union [("name", CType.array CType.char 0), ("access", kdbus_policy_access)])]

def kdbus_cmd_policy : CType :=
  CType.struct [("size", CType.__u64), ("policies", CType.array kdbus_policy 0)]

def kdbus_cmd_hello : CType :=
  CType.struct [("size", CType.__u64), ("conn_flags", CType.__u64),
    ("attach_flags", CType.__u64), ("bus_flags", CType.__u64), ("id", CType.__u64),
    ("bloom_size", CType.__u64), ("pool_size", CType.__u64),
    ("id128", CType.array CType.__u8 16), ("items", CType.array kdbus_item 0)]

def kdbus_cmd_bus_make : CType :=
  CType.struct [("size", CType.__u64), ("flags", CType.__u64), ("bus_flags", CType.__u64),
    ("bloom_size", CType.__u64), ("items", CType.array kdbus_item 0)]

def kdbus_cmd_ep_make : CType :=
  CType.struct [("size", CType.__u64), ("flags", CType.__u64),
    ("items", CType.array kdbus_item 0)]

def kdbus_cmd_ns_make : CType :=
  CType.struct [("size", CType.__u64), ("flags", CType.__u64),
    ("items", CType.array kdbus_item 0)]

def kdbus_cmd_name : CType :=
  CType.struct [("size", CType.__u64), ("flags", CType.__u64), ("id", CType.__u64),
    ("conn_flags", CType.__u64), ("name", CType.array CType.char 0)]

def kdbus_cmd_name_list : CType :=
  CType.struct [("flags", CType.__u64), ("offset", CType.__u64)]

def kdbus_name_list : CType :=
  CType.struct [("size", CType.__u64), ("names", CType.array kdbus_cmd_name 0)]

def kdbus_cmd_name_info : CType :=
  CType.struct [("size", CType.__u64), ("flags", CType.__u64), ("id", CType.__u64),
    ("offset", CType.__u64), ("name", CType.array CType.char 0)]

def kdbus_name_info : CType :=
  CType.struct [("size", CType.__u64), ("id", CType.__u64), ("flags", CType.__u64),
    ("items", CType.array kdbus_item 0)]

def kdbus_cmd_match : CType :=
  CType.struct [("size", CType.__u64), ("id", CType.__u64), ("cookie", CType.__u64),
    ("src_id", CType.__u64), ("items", CType.array kdbus_item 0)]

def kdbus_cmd_monitor : CType :=
  CType.struct [("id", CType.__u64), ("flags", CType.__u64)]

/-- Every `struct` the header declares, in declaration order. -/
def allStructs : List (String × CType) :=
  [("kdbus_notify_name_change", kdbus_notify_name_change),
   ("kdbus_notify_id_change", kdbus_notify_id_change),
   ("kdbus_creds", kdbus_creds),
   ("kdbus_audit", kdbus_audit),
   ("kdbus_timestamp", kdbus_timestamp),
   ("kdbus_vec", kdbus_vec),
   ("kdbus_memfd", kdbus_memfd),
   ("kdbus_item", kdbus_item),
   ("kdbus_msg", kdbus_msg),
   ("kdbus_policy_access", kdbus_policy_access),
   ("kdbus_policy", kdbus_policy),
   ("kdbus_cmd_policy", kdbus_cmd_policy),
   ("kdbus_cmd_hello", kdbus_cmd_hello),
   ("kdbus_cmd_bus_make", kdbus_cmd_bus_make),
   ("kdbus_cmd_ep_make", kdbus_cmd_ep_make),
   ("kdbus_cmd_ns_make", kdbus_cmd_ns_make),
   ("kdbus_cmd_name", kdbus_cmd_name),
   ("kdbus_cmd_name_list", kdbus_cmd_name_list),
   ("kdbus_name_list", kdbus_name_list),
   ("kdbus_cmd_name_info", kdbus_cmd_name_info),
   ("kdbus_name_info", kdbus_name_info),
   ("kdbus_cmd_match", kdbus_cmd_match),
   ("kdbus_cmd_monitor", kdbus_cmd_monitor)]

/-! ## Reading and writing a member of a record held in memory -/

/-- Memory: the byte stored at each address. -/
abbrev Mem := Nat → Nat

/-- Memory after the `n` low bytes of `v` are stored at `addr`, least significant first. -/
def storeLE (m : Mem) (addr n v : Nat) : Mem :=
  fun a => if addr ≤ a ∧ a < addr + n then v / 256 ^ (a - addr) % 256 else m a

/-- The `n`-byte unsigned value held at `addr`, least significant byte first. -/
def loadLE (m : Mem) (addr : Nat) : Nat → Nat
  | 0 => 0
  | n + 1 => m addr % 256 + 256 * loadLE m (addr + 1) n

/-- The assignment `rec.member = v` for a record of type `t` at address 0. -/
def storeMember (t : CType) (member : String) (v : Nat) (m : Mem) : Option Mem :=
  match offsetof t member, sizeofMember t member with
  | some off, some n => some (storeLE m off n v)
  | _, _ => none

/-- The value of `rec.member` for a record of type `t` at address 0. -/
def loadMember (t : CType) (member : String) (m : Mem) : Option Nat :=
  match offsetof t member, sizeofMember t member with
  | some off, some n => some (loadLE m off n)
  | _, _ => none

/-! ## Request codes (kdbus.h lines 413-445) -/

/-- Modelled from the spec: the direction values of `<sys/ioctl.h>`, which
`kdbus.h` includes and does not define (the generic Linux values). -/
def _IOC_NONE : Nat := 0

/-- Modelled from the spec: the direction bit of `<sys/ioctl.h>` for an argument
that userspace writes and the kernel reads. -/
def _IOC_WRITE : Nat := 1

/-- Modelled from the spec: the direction bit of `<sys/ioctl.h>` for an argument
that the kernel writes and userspace reads. -/
def _IOC_READ : Nat := 2

/-- Modelled from the spec: the `_IOC` encoding of `<sys/ioctl.h>`, which
`kdbus.h` includes and does not define: `dir << 30 | size << 16 | type << 8 | nr`. -/
def _IOC (dir type nr size : Nat) : Nat :=
  (dir <<< 30) ||| (type <<< 8) ||| (nr <<< 0) ||| (size <<< 16)

/-- Modelled from the spec: `_IO(type, nr)` of `<sys/ioctl.h>`, a request without argument. -/
def _IO (type nr : Nat) : Nat := _IOC _IOC_NONE type nr 0

/-- Modelled from the spec: `_IOR(type, nr, T)` of `<sys/ioctl.h>`. -/
def _IOR (type nr : Nat) (T : CType) : Nat := _IOC _IOC_READ type nr (sizeof T)

/-- Modelled from the spec: `_IOW(type, nr, T)` of `<sys/ioctl.h>`. -/
def _IOW (type nr : Nat) (T : CType) : Nat := _IOC _IOC_WRITE type nr (sizeof T)

/-- Modelled from the spec: `_IOWR(type, nr, T)` of `<sys/ioctl.h>`. -/
def _IOWR (type nr : Nat) (T : CType) : Nat :=
  _IOC (_IOC_READ ||| _IOC_WRITE) type nr (sizeof T)

/-- Modelled from the spec: `_IOC_DIR` of `<sys/ioctl.h>`, the direction bits of a code. -/
def _IOC_DIR (code : Nat) : Nat := (code >>> 30) &&& 0x3

/-- Modelled from the spec: `_IOC_TYPE` of `<sys/ioctl.h>`, the type byte of a code. -/
def _IOC_TYPE (code : Nat) : Nat := (code >>> 8) &&& 0xff

/-- Modelled from the spec: `_IOC_NR` of `<sys/ioctl.h>`, the command number of a code. -/
def _IOC_NR (code : Nat) : Nat := (code >>> 0) &&& 0xff

/-- Modelled from the spec: `_IOC_SIZE` of `<sys/ioctl.h>`, the argument size of a code. -/
def _IOC_SIZE (code : Nat) : Nat := (code >>> 16) &&& 0x3fff

/- kdbus control node commands: require unset state -/
def KDBUS_CMD_BUS_MAKE : Nat := _IOW KDBUS_IOC_MAGIC 0x00 kdbus_cmd_bus_make
def KDBUS_CMD_NS_MAKE : Nat := _IOR KDBUS_IOC_MAGIC 0x10 kdbus_cmd_ns_make

/- kdbus ep node commands: require unset state -/
def KDBUS_CMD_EP_MAKE : Nat := _IOW KDBUS_IOC_MAGIC 0x20 kdbus_cmd_ep_make
def KDBUS_CMD_HELLO : Nat := _IOWR KDBUS_IOC_MAGIC 0x30 kdbus_cmd_hello

/- kdbus ep node commands: require connected state -/
def KDBUS_CMD_MSG_SEND : Nat := _IOW KDBUS_IOC_MAGIC 0x40 kdbus_msg
def KDBUS_CMD_MSG_RECV : Nat := _IOR KDBUS_IOC_MAGIC 0x41 CType.pointer
def KDBUS_CMD_FREE : Nat := _IOW KDBUS_IOC_MAGIC 0x42 CType.pointer

def KDBUS_CMD_NAME_ACQUIRE : Nat := _IOWR KDBUS_IOC_MAGIC 0x50 kdbus_cmd_name
def KDBUS_CMD_NAME_RELEASE : Nat := _IOW KDBUS_IOC_MAGIC 0x51 kdbus_cmd_name
def KDBUS_CMD_NAME_LIST : Nat := _IOWR KDBUS_IOC_MAGIC 0x52 kdbus_cmd_name_list
def KDBUS_CMD_NAME_INFO : Nat := _IOWR KDBUS_IOC_MAGIC 0x53 kdbus_cmd_name_info

def KDBUS_CMD_MATCH_ADD : Nat := _IOW KDBUS_IOC_MAGIC 0x60 kdbus_cmd_match
def KDBUS_CMD_MATCH_REMOVE : Nat := _IOW KDBUS_IOC_MAGIC 0x61 kdbus_cmd_match
def KDBUS_CMD_MONITOR : Nat := _IOW KDBUS_IOC_MAGIC 0x62 kdbus_cmd_monitor

/- kdbus ep node commands: require ep owner state -/
def KDBUS_CMD_EP_POLICY_SET : Nat := _IOW KDBUS_IOC_MAGIC 0x70 kdbus_cmd_policy

/- kdbus memfd commands -/
def KDBUS_CMD_MEMFD_NEW : Nat := _IOR KDBUS_IOC_MAGIC 0x80 CType.pointer
def KDBUS_CMD_MEMFD_SIZE_GET : Nat := _IOR KDBUS_IOC_MAGIC 0x81 CType.pointer
def KDBUS_CMD_MEMFD_SIZE_SET : Nat := _IOW KDBUS_IOC_MAGIC 0x82 CType.pointer
def KDBUS_CMD_MEMFD_SEAL_GET : Nat := _IOR KDBUS_IOC_MAGIC 0x83 CType.pointer
def KDBUS_CMD_MEMFD_SEAL_SET : Nat := _IO KDBUS_IOC_MAGIC 0x84

/-- Every `KDBUS_CMD_*` request code, in declaration order. -/
def kdbusCmds : List Nat :=
  [KDBUS_CMD_BUS_MAKE, KDBUS_CMD_NS_MAKE, KDBUS_CMD_EP_MAKE, KDBUS_CMD_HELLO,
   KDBUS_CMD_MSG_SEND, KDBUS_CMD_MSG_RECV, KDBUS_CMD_FREE,
   KDBUS_CMD_NAME_ACQUIRE, KDBUS_CMD_NAME_RELEASE, KDBUS_CMD_NAME_LIST, KDBUS_CMD_NAME_INFO,
   KDBUS_CMD_MATCH_ADD, KDBUS_CMD_MATCH_REMOVE, KDBUS_CMD_MONITOR,
   KDBUS_CMD_EP_POLICY_SET,
   KDBUS_CMD_MEMFD_NEW, KDBUS_CMD_MEMFD_SIZE_GET, KDBUS_CMD_MEMFD_SIZE_SET,
   KDBUS_CMD_MEMFD_SEAL_GET, KDBUS_CMD_MEMFD_SEAL_SET]

/-- The command numbers the header gives to `_IO`, `_IOR`, `_IOW` and `_IOWR`,
in declaration order. -/
def kdbusCmdNrs : List Nat :=
  [0x00, 0x10, 0x20, 0x30, 0x40, 0x41, 0x42, 0x50, 0x51, 0x52, 0x53, 0x60, 0x61, 0x62, 0x70,
   0x80, 0x81, 0x82, 0x83, 0x84]

/-! ## Name registry

`kdbus.h` declares the commands `KDBUS_CMD_NAME_ACQUIRE` / `KDBUS_CMD_NAME_RELEASE`,
their argument `struct kdbus_cmd_name` and the `KDBUS_NAME_*` flags; the registry
that executes them is not part of the header. -/

/-- Modelled from the spec: one claim of a connection on a bus name, as the Name
Registry (whose code is not in `kdbus.h`) holds it: the name, the claiming
connection, the `KDBUS_NAME_*` flags it passed, and whether it waits in the
queue (`queued = true`) or is the primary owner (`queued = false`). -/
structure NameEntry where
  name : String
  conn : Nat
  flags : Nat
  queued : Bool
  deriving DecidableEq, Repr

/-- Modelled from the spec: the state of the Name Registry (not in `kdbus.h`),
every claim in arrival order, so that the queued claims of a name form its FIFO
queue. -/
abbrev Registry := List NameEntry

/-- Whether `flag` is set in `flags`. -/
def hasFlag (flags flag : Nat) : Bool := flags &&& flag ≠ 0

/-- Whether an entry records the primary owner of `name`. -/
def isOwnerEntry (name : String) (e : NameEntry) : Bool := e.name = name && !e.queued

/-- Whether an entry records a queued claimant of `name`. -/
def isQueuedEntry (name : String) (e : NameEntry) : Bool := e.name = name && e.queued

/-- The connections that are primary owner of `name`. -/
def primaryOwners (reg : Registry) (name : String) : List Nat :=
  (reg.filter (isOwnerEntry name)).map (fun e => e.conn)

/-- The queue of pending claimants of `name`, head first. -/
def queueOf (reg : Registry) (name : String) : List Nat :=
  (reg.filter (isQueuedEntry name)).map (fun e => e.conn)

/-- Result of `acquire`. -/
inductive AcquireResult where
  | Owned
  | Queued
  | Denied
  deriving DecidableEq, Repr

/-- Modelled from the spec: `acquire(connection, name, flags)` of the Name
Registry (section 4.5; the code is not in `kdbus.h`). `allowed` is the Policy
Engine's verdict on OWN at the time of the call. If the name is unowned it is
granted. If it is owned, `REPLACE_EXISTING` is requested and the current owner
allowed replacement, ownership is transferred and the prior owner goes to the
back of the queue only if it requested queueing. If replacement is not permitted
and `QUEUE` is requested the caller is appended to the queue. Otherwise the
request is denied. -/
def acquire (reg : Registry) (conn : Nat) (name : String) (flags : Nat) (allowed : Bool) :
    Registry × AcquireResult :=
  if !allowed then (reg, AcquireResult.Denied)
  else
    match reg.find? (isOwnerEntry name) with
    | none => (reg ++ [NameEntry.mk name conn flags false], AcquireResult.Owned)
    | some owner =>
      if hasFlag flags KDBUS_NAME_REPLACE_EXISTING
          && hasFlag owner.flags KDBUS_NAME_ALLOW_REPLACEMENT then
        (reg.erase owner
          ++ (if hasFlag owner.flags KDBUS_NAME_QUEUE then
                [NameEntry.mk owner.name owner.conn owner.flags true] else [])
          ++ [NameEntry.mk name conn flags false], AcquireResult.Owned)
      else if hasFlag flags KDBUS_NAME_QUEUE then
        (reg ++ [NameEntry.mk name conn flags true], AcquireResult.Queued)
      else (reg, AcquireResult.Denied)

/-- Modelled from the spec: promotion of the head of the queue of `name` to
primary owner (section 4.5, `release`). -/
def promoteHead (name : String) : Registry → Registry
  | [] => []
  | e :: es =>
    if isQueuedEntry name e then NameEntry.mk e.name e.conn e.flags false :: es
    else e :: promoteHead name es

/-- Modelled from the spec: `release(connection, name)` of the Name Registry
(section 4.5; the code is not in `kdbus.h`). If the connection is the primary
owner, its claim is dropped and the head of the queue, if any, is promoted; if
it is merely queued, it is removed from the queue. -/
def release (reg : Registry) (conn : Nat) (name : String) : Registry :=
  match reg.find? (fun e => isOwnerEntry name e && e.conn = conn) with
  | some own => promoteHead name (reg.erase own)
  | none => reg.filter (fun e => !(isQueuedEntry name e && e.conn = conn))

/-- Modelled from the spec: disconnection of a connection, which "implicitly
performs release for every owned/queued name" (section 4.5). -/
def disconnect (reg : Registry) (conn : Nat) : Registry :=
  ((reg.filter (fun e => e.conn = conn)).map (fun e => e.name)).foldl
    (fun r n => release r conn n) reg

/-- An operation on the Name Registry. -/
inductive RegistryOp where
  | acquire (conn : Nat) (name : String) (flags : Nat) (allowed : Bool)
  | release (conn : Nat) (name : String)
  | disconnect (conn : Nat)
  deriving Repr

/-- The registry after one operation. -/
def step (reg : Registry) : RegistryOp → Registry
  | RegistryOp.acquire conn name flags allowed => (acquire reg conn name flags allowed).1
  | RegistryOp.release conn name => release reg conn name
  | RegistryOp.disconnect conn => disconnect reg conn

/-- The registry after a sequence of operations on the empty registry of a new bus. -/
def run (ops : List RegistryOp) : Registry := ops.foldl step []

/-- The ownership invariant: no name has more than one primary-owner entry. -/
def ExclusiveOwners (reg : Registry) : Prop :=
  ∀ name, reg.countP (isOwnerEntry name) ≤ 1

/-! # Theorems -/

/-! ## Item types -/

/-- C1: the item type space is split by the three base constants into the
ranges [1, 0x400) (user-supplied), [0x400, 0x800) (kernel-attached metadata) and
[0x800, ...) (kernel-synthesized notifications), every value but 0 falling in
exactly one of them; the 7 user types are 1..7, the 12 metadata types are
0x400..0x40B, the 7 notification types are 0x800..0x806, each classified into
its documented group; the 26 values are pairwise distinct and none is
`_KDBUS_ITEM_NULL` = 0. -/
theorem item_types_partition :
    (_KDBUS_ITEM_NULL = 0 ∧ _KDBUS_ITEM_USER_BASE = 1 ∧ _KDBUS_ITEM_ATTACH_BASE = 0x400
      ∧ _KDBUS_ITEM_KERNEL_BASE = 0x800)
    ∧ (∀ t, (itemGroup t = ItemGroup.null ↔ t = _KDBUS_ITEM_NULL)
        ∧ (itemGroup t = ItemGroup.user ↔
            _KDBUS_ITEM_USER_BASE ≤ t ∧ t < _KDBUS_ITEM_ATTACH_BASE)
        ∧ (itemGroup t = ItemGroup.attach ↔
            _KDBUS_ITEM_ATTACH_BASE ≤ t ∧ t < _KDBUS_ITEM_KERNEL_BASE)
        ∧ (itemGroup t = ItemGroup.kernel ↔ _KDBUS_ITEM_KERNEL_BASE ≤ t))
    ∧ userItemTypes = [1, 2, 3, 4, 5, 6, 7]
    ∧ attachItemTypes
        = [0x400, 0x401, 0x402, 0x403, 0x404, 0x405, 0x406, 0x407, 0x408, 0x409, 0x40A, 0x40B]
    ∧ kernelItemTypes = [0x800, 0x801, 0x802, 0x803, 0x804, 0x805, 0x806]
    ∧ (∀ t ∈ userItemTypes, itemGroup t = ItemGroup.user)
    ∧ (∀ t ∈ attachItemTypes, itemGroup t = ItemGroup.attach)
    ∧ (∀ t ∈ kernelItemTypes, itemGroup t = ItemGroup.kernel)
    ∧ (userItemTypes ++ attachItemTypes ++ kernelItemTypes).length = 26
    ∧ (userItemTypes ++ attachItemTypes ++ kernelItemTypes).Nodup
    ∧ _KDBUS_ITEM_NULL ∉ userItemTypes ++ attachItemTypes ++ kernelItemTypes := by
  refine ⟨by decide, ?_, by decide, by decide, by decide, by decide, by decide, by decide,
    by decide, by decide, by decide⟩
  intro t
  simp only [itemGroup, _KDBUS_ITEM_NULL, _KDBUS_ITEM_USER_BASE, _KDBUS_ITEM_ATTACH_BASE,
    _KDBUS_ITEM_KERNEL_BASE]
  refine ⟨?_, ?_, ?_, ?_⟩ <;> split_ifs <;> simp <;> omega

/-! ## Destination addressing -/

/-- C2: `KDBUS_DST_ID_WELL_KNOWN_NAME` is 0, `KDBUS_DST_ID_BROADCAST` is
2^64 - 1 (a 64-bit value), the two differ, `KDBUS_SRC_ID_KERNEL` is 0, and every
`dst_id` is in exactly one of the three cases: the well-known-name sentinel, the
broadcast sentinel, or a direct connection id (every other value). -/
theorem dst_id_three_way (dst_id : Nat) :
    KDBUS_DST_ID_WELL_KNOWN_NAME = 0
    ∧ KDBUS_DST_ID_BROADCAST = 2 ^ 64 - 1
    ∧ KDBUS_DST_ID_BROADCAST < 2 ^ 64
    ∧ KDBUS_DST_ID_WELL_KNOWN_NAME ≠ KDBUS_DST_ID_BROADCAST
    ∧ KDBUS_SRC_ID_KERNEL = 0
    ∧ (dstKind dst_id = DstKind.wellKnownName ↔ dst_id = KDBUS_DST_ID_WELL_KNOWN_NAME)
    ∧ (dstKind dst_id = DstKind.broadcast ↔ dst_id = KDBUS_DST_ID_BROADCAST)
    ∧ (dstKind dst_id = DstKind.connection dst_id ↔
        dst_id ≠ KDBUS_DST_ID_WELL_KNOWN_NAME ∧ dst_id ≠ KDBUS_DST_ID_BROADCAST)
    ∧ ((dstKind dst_id = DstKind.wellKnownName ∧ dstKind dst_id ≠ DstKind.broadcast
          ∧ dstKind dst_id ≠ DstKind.connection dst_id)
        ∨ (dstKind dst_id ≠ DstKind.wellKnownName ∧ dstKind dst_id = DstKind.broadcast
          ∧ dstKind dst_id ≠ DstKind.connection dst_id)
        ∨ (dstKind dst_id ≠ DstKind.wellKnownName ∧ dstKind dst_id ≠ DstKind.broadcast
          ∧ dstKind dst_id = DstKind.connection dst_id)) := by
  have hb : KDBUS_DST_ID_BROADCAST = 18446744073709551615 := by decide
  have hn : KDBUS_DST_ID_WELL_KNOWN_NAME = 0 := rfl
  refine ⟨rfl, by decide, by decide, by decide, rfl, ?_, ?_, ?_, ?_⟩ <;>
    simp only [dstKind, hb, hn] <;> split_ifs <;> simp_all

/-! ## Payload types -/

/-- C6: `KDBUS_PAYLOAD_DBUS1` is the big-endian 64-bit integer of the ASCII
bytes of 'DBusVer1' and `KDBUS_PAYLOAD_GVARIANT` that of 'GVariant'; both are
8 bytes long, fit in 64 bits, differ from each other and from
`KDBUS_PAYLOAD_KERNEL` = 0. -/
theorem payload_type_tags :
    KDBUS_PAYLOAD_DBUS1 = asciiBE "DBusVer1"
    ∧ KDBUS_PAYLOAD_GVARIANT = asciiBE "GVariant"
    ∧ "DBusVer1".toList.map Char.toNat = [0x44, 0x42, 0x75, 0x73, 0x56, 0x65, 0x72, 0x31]
    ∧ "GVariant".toList.map Char.toNat = [0x47, 0x56, 0x61, 0x72, 0x69, 0x61, 0x6e, 0x74]
    ∧ KDBUS_PAYLOAD_DBUS1 = 0x4442757356657231
    ∧ KDBUS_PAYLOAD_GVARIANT = 0x4756617269616e74
    ∧ KDBUS_PAYLOAD_DBUS1 < 2 ^ 64
    ∧ KDBUS_PAYLOAD_GVARIANT < 2 ^ 64
    ∧ KDBUS_PAYLOAD_DBUS1 ≠ KDBUS_PAYLOAD_GVARIANT
    ∧ KDBUS_PAYLOAD_KERNEL = 0
    ∧ KDBUS_PAYLOAD_DBUS1 ≠ KDBUS_PAYLOAD_KERNEL
    ∧ KDBUS_PAYLOAD_GVARIANT ≠ KDBUS_PAYLOAD_KERNEL := by
  refine ⟨by decide, by decide, by decide, by decide, rfl, rfl, by decide, by decide,
    by decide, rfl, by decide, by decide⟩

/-! ## Record layouts -/

/-- Bytes outside the range read do not matter to `loadLE`. -/
theorem loadLE_congr (m m' : Mem) (n addr : Nat)
    (h : ∀ a, addr ≤ a → a < addr + n → m a = m' a) : loadLE m addr n = loadLE m' addr n := by
  induction n generalizing addr with
  | zero => rfl
  | succ n ih =>
    simp only [loadLE]
    rw [h addr (le_refl _) (by omega), ih (addr + 1) (fun a h1 h2 => h a (by omega) (by omega))]

/-- Loading `n` bytes where `n` bytes of `v` were stored gives `v` modulo `256 ^ n`. -/
theorem loadLE_storeLE (m : Mem) (n addr v : Nat) :
    loadLE (storeLE m addr n v) addr n = v % 256 ^ n := by
  induction n generalizing addr v m with
  | zero => simp [loadLE, Nat.mod_one]
  | succ n ih =>
    simp only [loadLE]
    have h0 : storeLE m addr (n + 1) v addr = v % 256 := by
      simp [storeLE]
    have h1 : loadLE (storeLE m addr (n + 1) v) (addr + 1) n
        = loadLE (storeLE m (addr + 1) n (v / 256)) (addr + 1) n := by
      apply loadLE_congr
      intro a ha hb
      have e : a - addr = (a - (addr + 1)) + 1 := by omega
      simp only [storeLE]
      rw [if_pos ⟨by omega, by omega⟩, if_pos ⟨ha, hb⟩, e, pow_succ, Nat.div_div_eq_div_mul,
        Nat.mul_comm]
    rw [h0, h1, ih, Nat.mod_mod, pow_succ, Nat.mul_comm (256 ^ n) 256, Nat.mod_mul]

/-- C7: every chained record starts with the same 16-byte header: in
`struct kdbus_item` and in `struct kdbus_policy` the 64-bit `size` is at offset
0, the 64-bit `type` at offset 8, and the payload union (with all its members)
starts at offset 16; the header `KDBUS_PART_HEADER` is 16 bytes in both. -/
theorem part_header_layout :
    offsetsOf (fields KDBUS_PART_HEADER) = [("size", 0), ("type", 8)]
    ∧ sizeof KDBUS_PART_HEADER = 16
    ∧ offsetsOf (fields kdbus_item)
        = [("", 0), ("size", 0), ("type", 8), ("", 16), ("data", 16), ("data32", 16),
           ("data64", 16), ("str", 16), ("id", 16), ("vec", 16), ("creds", 16), ("audit", 16),
           ("timestamp", 16), ("memfd", 16), ("fds", 16), ("name_change", 16),
           ("id_change", 16)]
    ∧ offsetsOf (fields kdbus_policy)
        = [("", 0), ("size", 0), ("type", 8), ("", 16), ("name", 16), ("access", 16)]
    ∧ (∀ t ∈ [kdbus_item, kdbus_policy],
        offsetof t "size" = some 0 ∧ sizeofMember t "size" = some 8
        ∧ offsetof t "type" = some 8 ∧ sizeofMember t "type" = some 8
        ∧ ((fields t).take 4).map (fun f => (f.offset, sizeof f.type))
            = [(0, sizeof KDBUS_PART_HEADER), (0, 8), (8, 8), (16, sizeof t - 16)]) := by
  refine ⟨by decide, by decide, by decide, by decide, by decide⟩

/-- C3: in `struct kdbus_msg` the members size, flags, dst_id, src_id,
payload_type, cookie are 64-bit values at offsets 0, 8, 16, 24, 32, 40; the one
further slot is a union at offset 48 whose members `cookie_reply` and
`timeout_ns` both occupy bytes 48..55, so that a 64-bit value stored through one
is the value read through the other; the fixed part is 56 bytes and `items[]`
starts at offset 56. -/
theorem kdbus_msg_layout (m : Mem) (v : Nat) (hv : v < 2 ^ 64) :
    (fields kdbus_msg).map (fun f => (f.name, f.offset, sizeof f.type))
        = [("size", 0, 8), ("flags", 8, 8), ("dst_id", 16, 8), ("src_id", 24, 8),
           ("payload_type", 32, 8), ("cookie", 40, 8), ("", 48, 8), ("cookie_reply", 48, 8),
           ("timeout_ns", 48, 8), ("items", 56, 0)]
    ∧ sizeof kdbus_msg = 56
    ∧ offsetof kdbus_msg "cookie_reply" = some 48
    ∧ offsetof kdbus_msg "timeout_ns" = some 48
    ∧ offsetof kdbus_msg "items" = some 56
    ∧ (storeMember kdbus_msg "cookie_reply" v m).bind (loadMember kdbus_msg "timeout_ns")
        = some v
    ∧ (storeMember kdbus_msg "timeout_ns" v m).bind (loadMember kdbus_msg "cookie_reply")
        = some v := by
  have o1 : offsetof kdbus_msg "cookie_reply" = some 48 := by decide
  have o2 : offsetof kdbus_msg "timeout_ns" = some 48 := by decide
  have s1 : sizeofMember kdbus_msg "cookie_reply" = some 8 := by decide
  have s2 : sizeofMember kdbus_msg "timeout_ns" = some 8 := by decide
  have hmod : v % 256 ^ 8 = v := Nat.mod_eq_of_lt (by norm_num at hv ⊢; exact hv)
  refine ⟨by decide, by decide, o1, o2, by decide, ?_, ?_⟩ <;>
    simp only [storeMember, loadMember, o1, o2, s1, s2, Option.bind, loadLE_storeLE, hmod]

/-- Witness of C3 at a concrete memory and value. -/
theorem kdbus_msg_layout_witness :
    (0x1122334455667788 < 2 ^ 64)
    ∧ (storeMember kdbus_msg "cookie_reply" 0x1122334455667788 (fun _ => 0)).bind
        (loadMember kdbus_msg "timeout_ns") = some 0x1122334455667788 :=
  ⟨by decide, (kdbus_msg_layout (fun _ => 0) 0x1122334455667788 (by decide)).2.2.2.2.2.1⟩

/-- C9: no struct of the header depends on compiler padding: for each of the 23
structs, with the members laid out back to back (a union taking the size of its
largest member) every member is at a multiple of its natural alignment, the
total size is a multiple of 8, and every zero-length array starts at a multiple
of 8; hence the compiler's layout is the back-to-back one. In particular
`kdbus_memfd` is 8 + 4 + 4 = 16, `kdbus_cmd_hello` is 7 * 8 + 16 = 72 and
`kdbus_item` is 16 + 40 = 56 bytes. -/
theorem structs_need_no_padding :
    allStructs.map (fun s => s.1)
        = ["kdbus_notify_name_change", "kdbus_notify_id_change", "kdbus_creds", "kdbus_audit",
           "kdbus_timestamp", "kdbus_vec", "kdbus_memfd", "kdbus_item", "kdbus_msg",
           "kdbus_policy_access", "kdbus_policy", "kdbus_cmd_policy", "kdbus_cmd_hello",
           "kdbus_cmd_bus_make", "kdbus_cmd_ep_make", "kdbus_cmd_ns_make", "kdbus_cmd_name",
           "kdbus_cmd_name_list", "kdbus_name_list", "kdbus_cmd_name_info", "kdbus_name_info",
           "kdbus_cmd_match", "kdbus_cmd_monitor"]
    ∧ (∀ s ∈ allStructs,
        (∀ f ∈ packedFields s.2, f.offset % alignof f.type = 0)
        ∧ packedSize s.2 % 8 = 0
        ∧ (∀ f ∈ packedFields s.2, isZeroLengthArray f.type = true → f.offset % 8 = 0)
        ∧ offsetsOf (fields s.2) = offsetsOf (packedFields s.2)
        ∧ sizeof s.2 = packedSize s.2)
    ∧ packedSize kdbus_memfd = 8 + 4 + 4
    ∧ packedSize kdbus_cmd_hello = 7 * 8 + 16
    ∧ packedSize kdbus_item = 16 + 40
    ∧ allStructs.map (fun s =>
          ((packedFields s.2).filter (fun f => isZeroLengthArray f.type)).map
            (fun f => (f.name, f.offset)))
        = [[("name", 24)], [], [], [], [], [], [],
           [("data", 16), ("data32", 16), ("data64", 16), ("str", 16), ("fds", 16)],
           [("items", 56)], [], [("name", 16)], [("policies", 8)], [("items", 72)],
           [("items", 32)], [("items", 16)], [("items", 16)], [("name", 32)], [],
           [("names", 8)], [("name", 32)], [("items", 24)], [("items", 32)], []] := by
  refine ⟨by decide, by decide, by decide, by decide, by decide, by decide⟩

/-! ## Request codes -/

/-- The command number of a request code is the `nr` it was built from,
whatever the direction, type and size are. -/
theorem IOC_NR_IOC (dir type nr size : Nat) (h : nr < 256) :
    _IOC_NR (_IOC dir type nr size) = nr := by
  unfold _IOC_NR _IOC
  apply Nat.eq_of_testBit_eq
  intro i
  have hff : (0xff : Nat) = 2 ^ 8 - 1 := by norm_num
  rw [hff]
  simp only [Nat.shiftRight_zero, Nat.shiftLeft_zero, Nat.testBit_and, Nat.testBit_or,
    Nat.testBit_shiftLeft, Nat.testBit_two_pow_sub_one]
  by_cases hi : i < 8
  · have h30 : ¬ (i ≥ 30) := by omega
    have h8 : ¬ (i ≥ 8) := by omega
    have h16 : ¬ (i ≥ 16) := by omega
    simp [hi, h30, h8, h16]
  · have : nr.testBit i = false :=
      Nat.testBit_lt_two_pow (lt_of_lt_of_le h (by
        calc 256 = 2 ^ 8 := by norm_num
          _ ≤ 2 ^ i := Nat.pow_le_pow_right (by norm_num) (by omega)))
    simp [hi, this]

/-- Counterexample to C4 as stated: the header declares 20 request codes with
20 different command numbers, not 19. -/
theorem request_codes_not_19 :
    kdbusCmds.toFinset.card = 20
    ∧ (kdbusCmds.map _IOC_NR).toFinset.card = 20
    ∧ ¬ (kdbusCmds.toFinset.card = 19) := by
  refine ⟨by decide, by decide, by decide⟩

/-- C4 (amended): the control surface is a fixed set of 20 distinguishable
operations: every `KDBUS_CMD_*` request code has type byte `KDBUS_IOC_MAGIC` =
0x95, the 20 command numbers 0x00, 0x10, 0x20, 0x30, 0x40, 0x41, 0x42, 0x50,
0x51, 0x52, 0x53, 0x60, 0x61, 0x62, 0x70, 0x80, 0x81, 0x82, 0x83, 0x84 are
pairwise distinct, and so the 20 request codes are pairwise distinct whatever
direction `dir nr` and size `size nr` each one is encoded with. -/
theorem request_codes_distinct (dir size : Nat → Nat) :
    kdbusCmds.length = 20
    ∧ KDBUS_IOC_MAGIC = 0x95
    ∧ (∀ c ∈ kdbusCmds, _IOC_TYPE c = KDBUS_IOC_MAGIC)
    ∧ kdbusCmds.map _IOC_NR = kdbusCmdNrs
    ∧ kdbusCmdNrs
        = [0x00, 0x10, 0x20, 0x30, 0x40, 0x41, 0x42, 0x50, 0x51, 0x52, 0x53, 0x60, 0x61, 0x62,
           0x70, 0x80, 0x81, 0x82, 0x83, 0x84]
    ∧ kdbusCmdNrs.Nodup
    ∧ kdbusCmds.Nodup
    ∧ kdbusCmds
        = kdbusCmds.map (fun c => _IOC (_IOC_DIR c) KDBUS_IOC_MAGIC (_IOC_NR c) (_IOC_SIZE c))
    ∧ (kdbusCmdNrs.map (fun nr => _IOC (dir nr) KDBUS_IOC_MAGIC nr (size nr))).Nodup := by
  refine ⟨by decide, rfl, by decide, by decide, rfl, by decide, by decide, by decide, ?_⟩
  have hlt : ∀ nr ∈ kdbusCmdNrs, nr < 256 := by decide
  refine List.Nodup.map_on ?_ (by decide)
  intro x hx y hy hxy
  have h := congrArg _IOC_NR hxy
  rwa [IOC_NR_IOC _ _ _ _ (hlt x hx), IOC_NR_IOC _ _ _ _ (hlt y hy)] at h

/-- C10 (what the code does): `KDBUS_CMD_BUS_MAKE` and `KDBUS_CMD_EP_MAKE` are
encoded write-only (`_IOW`), `KDBUS_CMD_NS_MAKE` read-only (`_IOR`), and only
`KDBUS_CMD_HELLO` read-write (`_IOWR`): none of the three creation commands has
both direction bits set, and `KDBUS_CMD_NS_MAKE` does not carry the direction
bits of the other two. -/
theorem make_cmd_directions :
    _IOC_DIR KDBUS_CMD_BUS_MAKE = _IOC_WRITE
    ∧ _IOC_DIR KDBUS_CMD_NS_MAKE = _IOC_READ
    ∧ _IOC_DIR KDBUS_CMD_EP_MAKE = _IOC_WRITE
    ∧ _IOC_DIR KDBUS_CMD_HELLO = _IOC_READ ||| _IOC_WRITE
    ∧ (∀ c ∈ [KDBUS_CMD_BUS_MAKE, KDBUS_CMD_NS_MAKE, KDBUS_CMD_EP_MAKE],
        _IOC_DIR c ≠ _IOC_READ ||| _IOC_WRITE)
    ∧ _IOC_DIR KDBUS_CMD_NS_MAKE ≠ _IOC_DIR KDBUS_CMD_BUS_MAKE
    ∧ _IOC_DIR KDBUS_CMD_NS_MAKE ≠ _IOC_DIR KDBUS_CMD_EP_MAKE := by
  refine ⟨by decide, by decide, by decide, by decide, by decide, by decide, by decide⟩

/-! ## Flag masks -/

/-- A bit is set in the mask of a set of flags exactly when it is set in one of the flags. -/
theorem testBit_orMask (S : Finset Nat) (i : Nat) :
    (orMask S).testBit i = true ↔ ∃ v ∈ S, v.testBit i = true := by
  induction S using Finset.induction_on with
  | empty => simp [orMask]
  | insert ha ih =>
    rename_i a s
    have hins : orMask (insert a s) = a ||| orMask s := by
      unfold orMask
      rw [Finset.fold_insert ha]
      rfl
    rw [hins, Nat.testBit_or, Bool.or_eq_true, ih]
    constructor
    · rintro (h | ⟨v, hv, h⟩)
      · exact ⟨a, Finset.mem_insert_self a s, h⟩
      · exact ⟨v, Finset.mem_insert_of_mem hv, h⟩
    · rintro ⟨v, hv, h⟩
      rcases Finset.mem_insert.mp hv with rfl | hv
      · exact Or.inl h
      · exact Or.inr ⟨v, hv, h⟩

/-- Masking with a single bit is non-zero exactly when that bit is set. -/
theorem and_two_pow_ne_zero (x k : Nat) : x &&& 2 ^ k ≠ 0 ↔ x.testBit k = true := by
  rw [Nat.and_two_pow]
  cases h : x.testBit k <;> simp

/-- The flags of a single-bit enumeration found in the mask of a set of its
flags are that set. -/
theorem flagsIn_orMask (E : List Nat) (hE : ∀ v ∈ E, ∃ k, v = 2 ^ k) (S : Finset Nat)
    (hS : S ⊆ E.toFinset) : flagsIn E (orMask S) = S := by
  ext v
  simp only [flagsIn, List.mem_toFinset, List.mem_filter, decide_eq_true_eq]
  constructor
  · rintro ⟨hv, hne⟩
    obtain ⟨k, rfl⟩ := hE v hv
    rw [and_two_pow_ne_zero, testBit_orMask] at hne
    obtain ⟨w, hw, hb⟩ := hne
    obtain ⟨j, rfl⟩ := hE w (List.mem_toFinset.mp (hS hw))
    rw [Nat.testBit_two_pow, decide_eq_true_eq] at hb
    rwa [← hb]
  · intro hv
    have hvE := List.mem_toFinset.mp (hS hv)
    refine ⟨hvE, ?_⟩
    obtain ⟨k, rfl⟩ := hE v hvE
    rw [and_two_pow_ne_zero, testBit_orMask]
    exact ⟨_, hv, Nat.testBit_two_pow_self⟩

/-- The mask of the flags found in `m` is `m` restricted to the bits of the enumeration. -/
theorem orMask_flagsIn (E : List Nat) (hE : ∀ v ∈ E, ∃ k, v = 2 ^ k) (m : Nat) :
    orMask (flagsIn E m) = m &&& orMask E.toFinset := by
  apply Nat.eq_of_testBit_eq
  intro i
  rw [Bool.eq_iff_iff, Nat.testBit_and, Bool.and_eq_true, testBit_orMask, testBit_orMask]
  simp only [flagsIn, List.mem_toFinset, List.mem_filter, decide_eq_true_eq]
  constructor
  · rintro ⟨v, ⟨hv, hne⟩, hb⟩
    obtain ⟨k, rfl⟩ := hE v hv
    rw [Nat.testBit_two_pow, decide_eq_true_eq] at hb
    subst hb
    exact ⟨(and_two_pow_ne_zero m k).mp hne, _, hv, Nat.testBit_two_pow_self⟩
  · rintro ⟨hm, v, hv, hb⟩
    obtain ⟨k, rfl⟩ := hE v hv
    rw [Nat.testBit_two_pow, decide_eq_true_eq] at hb
    subst hb
    exact ⟨_, ⟨hv, (and_two_pow_ne_zero m k).mpr hm⟩, Nat.testBit_two_pow_self⟩

/-- The mask of a subset of an enumeration has no bit outside the mask of the
whole enumeration. -/
theorem orMask_and_of_subset (E : List Nat) (hE : ∀ v ∈ E, ∃ k, v = 2 ^ k) (S : Finset Nat)
    (hS : S ⊆ E.toFinset) : orMask S &&& orMask E.toFinset = orMask S := by
  have h := orMask_flagsIn E hE (orMask S)
  rwa [flagsIn_orMask E hE S hS, eq_comm] at h

/-- Every constant of every flag enumeration is a single bit. -/
theorem flagEnums_single_bit : ∀ E ∈ flagEnums, ∀ v ∈ E, ∃ k, v = 2 ^ k := by
  have h : ∀ E ∈ flagEnums, ∀ v ∈ E, ∃ k ∈ List.range 17, v = 2 ^ k := by decide
  exact fun E hE v hv => (h E hE v hv).imp (fun _ hk => hk.2)

/-- Subsets of an enumeration whose whole mask is `2 ^ n - 1` have masks below `2 ^ n`. -/
theorem orMask_lt_of_subset (E : List Nat) (hE : ∀ v ∈ E, ∃ k, v = 2 ^ k) (n : Nat)
    (hall : orMask E.toFinset = 2 ^ n - 1) (S : Finset Nat) (hS : S ⊆ E.toFinset) :
    orMask S < 2 ^ n := by
  have h := orMask_and_of_subset E hE S hS
  rw [hall, Nat.and_pow_two_sub_one_eq_mod] at h
  rw [← h]
  exact Nat.mod_lt _ (Nat.pos_pow_of_pos n (by norm_num))

/-- Every value below `2 ^ n` is the mask of a subset of an enumeration whose
whole mask is `2 ^ n - 1`. -/
theorem exists_orMask_eq (E : List Nat) (hE : ∀ v ∈ E, ∃ k, v = 2 ^ k) (n : Nat)
    (hall : orMask E.toFinset = 2 ^ n - 1) (m : Nat) (hm : m < 2 ^ n) :
    ∃ S, S ⊆ E.toFinset ∧ orMask S = m := by
  refine ⟨flagsIn E m, ?_, ?_⟩
  · intro v hv
    simp only [flagsIn, List.mem_toFinset, List.mem_filter] at hv
    exact List.mem_toFinset.mpr hv.1
  · rw [orMask_flagsIn E hE, hall, Nat.and_pow_two_sub_one_eq_mod, Nat.mod_eq_of_lt hm]

/-- C5: every flag constant of the header is a single bit and the constants of
one enumeration are pairwise distinct, so that a set of flags of one
enumeration is recovered from its OR-ed mask (the mask is injective). The
subsets of {OWN = 1, SEND = 2, RECV = 4} correspond one to one to the masks
0..7, the sets of the ten `KDBUS_ATTACH_*` flags to the masks 0..0x3FF, and
`KDBUS_NAME_IN_QUEUE` = 1 << 16 is in no combination of REPLACE_EXISTING, QUEUE
and ALLOW_REPLACEMENT, whose masks are within 0x7. -/
theorem flag_masks_injective :
    (∀ E ∈ flagEnums,
        (∀ v ∈ E, ∃ k, v = 1 <<< k) ∧ E.Nodup
        ∧ ∀ S T : Finset Nat, S ⊆ E.toFinset → T ⊆ E.toFinset →
            flagsIn E (orMask S) = S ∧ (orMask S = orMask T → S = T))
    ∧ (KDBUS_POLICY_OWN = 1 ∧ KDBUS_POLICY_SEND = 2 ∧ KDBUS_POLICY_RECV = 4)
    ∧ (∀ S, S ⊆ policyFlags.toFinset → orMask S ≤ 7)
    ∧ (∀ m, m ≤ 7 → ∃ S, S ⊆ policyFlags.toFinset ∧ orMask S = m)
    ∧ attachFlags.length = 10
    ∧ (∀ S, S ⊆ attachFlags.toFinset → orMask S ≤ 0x3FF)
    ∧ (∀ m, m ≤ 0x3FF → ∃ S, S ⊆ attachFlags.toFinset ∧ orMask S = m)
    ∧ KDBUS_NAME_IN_QUEUE = 1 <<< 16
    ∧ orMask nameRequestFlags.toFinset = 0x7
    ∧ (∀ S, S ⊆ nameRequestFlags.toFinset →
        orMask S ≤ 0x7 ∧ orMask S &&& KDBUS_NAME_IN_QUEUE = 0) := by
  have hpol : ∀ v ∈ policyFlags, ∃ k, v = 2 ^ k :=
    flagEnums_single_bit policyFlags (by decide)
  have hatt : ∀ v ∈ attachFlags, ∃ k, v = 2 ^ k :=
    flagEnums_single_bit attachFlags (by decide)
  have hreq : ∀ v ∈ nameRequestFlags, ∃ k, v = 2 ^ k := fun v hv =>
    flagEnums_single_bit nameFlags (by decide) v (List.mem_append_left _ hv)
  have mpol : orMask policyFlags.toFinset = 2 ^ 3 - 1 := by decide
  have matt : orMask attachFlags.toFinset = 2 ^ 10 - 1 := by decide
  have mreq : orMask nameRequestFlags.toFinset = 2 ^ 3 - 1 := by decide
  have hnodup : ∀ E ∈ flagEnums, E.Nodup := by decide
  refine ⟨?_, by decide, ?_, ?_, by decide, ?_, ?_, rfl, by decide, ?_⟩
  · intro E hE
    refine ⟨?_, hnodup E hE, ?_⟩
    · intro v hv
      obtain ⟨k, hk⟩ := flagEnums_single_bit E hE v hv
      exact ⟨k, by rw [hk, Nat.one_shiftLeft]⟩
    · intro S T hS hT
      have hS2 := flagsIn_orMask E (flagEnums_single_bit E hE) S hS
      have hT2 := flagsIn_orMask E (flagEnums_single_bit E hE) T hT
      refine ⟨hS2, fun h => ?_⟩
      rw [← hS2, ← hT2, h]
  · intro S hS
    have := orMask_lt_of_subset policyFlags hpol 3 mpol S hS
    norm_num at this
    omega
  · intro m hm
    exact exists_orMask_eq policyFlags hpol 3 mpol m (by norm_num; omega)
  · intro S hS
    have := orMask_lt_of_subset attachFlags hatt 10 matt S hS
    norm_num at this
    omega
  · intro m hm
    exact exists_orMask_eq attachFlags hatt 10 matt m (by norm_num; omega)
  · intro S hS
    have h := orMask_lt_of_subset nameRequestFlags hreq 3 mreq S hS
    have h8 : orMask S < 8 := by norm_num at h; exact h
    refine ⟨by omega, ?_⟩
    have h16 : KDBUS_NAME_IN_QUEUE = 2 ^ 16 := by decide
    rw [h16, Nat.and_two_pow, Nat.testBit_lt_two_pow (lt_trans h8 (by norm_num))]
    rfl

/-! ## Name registry -/

/-- Erasing a member of a list lowers the count of a predicate by one exactly
when the member satisfies it. -/
theorem countP_erase_add (p : NameEntry → Bool) (l : Registry) (a : NameEntry) (h : a ∈ l) :
    (l.erase a).countP p + (if p a = true then 1 else 0) = l.countP p := by
  induction l with
  | nil => cases h
  | cons b l ih =>
    rw [List.erase_cons]
    by_cases hba : b = a
    · subst hba
      simp [List.countP_cons]
    · have hmem : a ∈ l := by
        rcases List.mem_cons.mp h with h1 | h1
        · exact absurd h1.symm hba
        · exact h1
      have hbeq : (b == a) = false := by simpa using hba
      simp only [hbeq, Bool.false_eq_true, if_false, List.countP_cons]
      have := ih hmem
      omega

theorem isOwnerEntry_iff (name : String) (e : NameEntry) :
    isOwnerEntry name e = true ↔ e.name = name ∧ e.queued = false := by
  simp [isOwnerEntry]

theorem isQueuedEntry_iff (name : String) (e : NameEntry) :
    isQueuedEntry name e = true ↔ e.name = name ∧ e.queued = true := by
  simp [isQueuedEntry]

/-- Appending a queued claim leaves every count of primary owners unchanged. -/
theorem countP_owner_append_queued (reg : Registry) (n name : String) (c f : Nat) :
    (reg ++ [NameEntry.mk name c f true]).countP (isOwnerEntry n)
      = reg.countP (isOwnerEntry n) := by
  simp [List.countP_append, List.countP_cons, isOwnerEntry]

/-- Appending a primary-owner claim on `name` raises the count for `name` by one
and leaves the other names alone. -/
theorem countP_owner_append_owner (reg : Registry) (n name : String) (c f : Nat) :
    (reg ++ [NameEntry.mk name c f false]).countP (isOwnerEntry n)
      = reg.countP (isOwnerEntry n) + (if name = n then 1 else 0) := by
  simp [List.countP_append, List.countP_cons, isOwnerEntry]

/-- After the primary-owner entry of `name` is erased and a new one appended,
no name has more than one primary owner. -/
theorem transfer_countP (reg : Registry) (owner : NameEntry) (name n : String) (c f : Nat)
    (h : ExclusiveOwners reg) (hmem : owner ∈ reg) (hown : isOwnerEntry name owner = true)
    (tail : Registry) (htail : tail.countP (isOwnerEntry n) = 0) :
    (reg.erase owner ++ tail ++ [NameEntry.mk name c f false]).countP (isOwnerEntry n) ≤ 1 := by
  rw [countP_owner_append_owner, List.countP_append, htail]
  have he := countP_erase_add (isOwnerEntry n) reg owner hmem
  have hle := h n
  by_cases hn : name = n
  · subst hn
    rw [if_pos hown] at he
    rw [if_pos rfl]
    omega
  · rw [if_neg hn]
    omega

/-- The operation `acquire` keeps the ownership invariant. -/
theorem acquire_exclusive (reg : Registry) (conn : Nat) (name : String) (flags : Nat)
    (allowed : Bool) (h : ExclusiveOwners reg) :
    ExclusiveOwners (acquire reg conn name flags allowed).1 := by
  intro n
  unfold acquire
  by_cases hden : (!allowed) = true
  · rw [if_pos hden]
    exact h n
  · rw [if_neg hden]
    split
    · rename_i hnone
      rw [countP_owner_append_owner]
      have h0 : reg.countP (isOwnerEntry name) = 0 :=
        List.countP_eq_zero.mpr (List.find?_eq_none.mp hnone)
      by_cases hn : name = n
      · subst hn
        rw [if_pos rfl]
        omega
      · rw [if_neg hn]
        exact h n
    · rename_i owner hsome
      have hmem : owner ∈ reg := List.mem_of_find?_eq_some hsome
      have hown : isOwnerEntry name owner = true := List.find?_some hsome
      by_cases hrep : (hasFlag flags KDBUS_NAME_REPLACE_EXISTING
          && hasFlag owner.flags KDBUS_NAME_ALLOW_REPLACEMENT) = true
      · rw [if_pos hrep]
        apply transfer_countP reg owner name n conn flags h hmem hown
        by_cases hq : hasFlag owner.flags KDBUS_NAME_QUEUE = true
        · rw [if_pos hq]
          simp [List.countP_cons, isOwnerEntry]
        · rw [if_neg hq]
          rfl
      · rw [if_neg hrep]
        by_cases hq : hasFlag flags KDBUS_NAME_QUEUE = true
        · rw [if_pos hq, countP_owner_append_queued]
          exact h n
        · rw [if_neg hq]
          exact h n

/-- Promoting the head of the queue of `name` adds at most one primary owner,
and only to `name`. -/
theorem promoteHead_countP (name n : String) (reg : Registry) :
    (promoteHead name reg).countP (isOwnerEntry n)
      ≤ reg.countP (isOwnerEntry n) + (if name = n then 1 else 0) := by
  induction reg with
  | nil => simp [promoteHead]
  | cons e es ih =>
    unfold promoteHead
    by_cases hq : isQueuedEntry name e = true
    · rw [if_pos hq]
      have he := (isQueuedEntry_iff _ _).mp hq
      have hold : isOwnerEntry n e = false := by simp [isOwnerEntry, he.2]
      rw [List.countP_cons, List.countP_cons, hold]
      by_cases hn : name = n
      · rw [if_pos hn]
        split_ifs <;> omega
      · have hnew : isOwnerEntry n (NameEntry.mk e.name e.conn e.flags false) = false := by
          have : ¬ e.name = n := fun h1 => hn (he.1.symm.trans h1)
          simp [isOwnerEntry, this]
        rw [hnew]
        simp
    · rw [if_neg hq, List.countP_cons, List.countP_cons]
      omega

/-- The operation `release` keeps the ownership invariant. -/
theorem release_exclusive (reg : Registry) (conn : Nat) (name : String)
    (h : ExclusiveOwners reg) : ExclusiveOwners (release reg conn name) := by
  intro n
  unfold release
  split
  · rename_i own hsome
    have hmem : own ∈ reg := List.mem_of_find?_eq_some hsome
    have hp := List.find?_some hsome
    have hown : isOwnerEntry name own = true := by
      simp only [Bool.and_eq_true] at hp
      exact hp.1
    have hpro := promoteHead_countP name n (reg.erase own)
    have he := countP_erase_add (isOwnerEntry n) reg own hmem
    have hle := h n
    by_cases hn : name = n
    · subst hn
      simp only [hown, if_true] at he
      simp only [if_true] at hpro
      omega
    · simp only [hn, if_false] at hpro
      omega
  · rw [List.countP_filter]
    exact le_trans (List.countP_mono_left (fun e _ hp => by
      simp only [Bool.and_eq_true] at hp
      exact hp.1)) (h n)

/-- Releasing a list of names keeps the ownership invariant. -/
theorem foldl_release_exclusive (conn : Nat) (names : List String) (reg : Registry)
    (h : ExclusiveOwners reg) :
    ExclusiveOwners (names.foldl (fun r n => release r conn n) reg) := by
  induction names generalizing reg with
  | nil => exact h
  | cons n ns ih => exact ih _ (release_exclusive reg conn n h)

/-- Every operation keeps the ownership invariant. -/
theorem step_exclusive (reg : Registry) (op : RegistryOp) (h : ExclusiveOwners reg) :
    ExclusiveOwners (step reg op) := by
  cases op with
  | acquire conn name flags allowed => exact acquire_exclusive reg conn name flags allowed h
  | release conn name => exact release_exclusive reg conn name h
  | disconnect conn => exact foldl_release_exclusive conn _ reg h

/-- The ownership invariant holds after any sequence of operations from any
registry that satisfies it. -/
theorem foldl_step_exclusive (ops : List RegistryOp) (reg : Registry)
    (h : ExclusiveOwners reg) : ExclusiveOwners (ops.foldl step reg) := by
  induction ops generalizing reg with
  | nil => exact h
  | cons op ops ih => exact ih _ (step_exclusive reg op h)

/-- C8: name ownership is exclusive: after any sequence of name-acquire
operations (with any flags and any policy verdict), name-release operations
and disconnections, a name has at most one primary owner. -/
theorem name_ownership_exclusive (ops : List RegistryOp) (name : String) :
    (primaryOwners (run ops) name).length ≤ 1
    ∧ (∀ c1 ∈ primaryOwners (run ops) name, ∀ c2 ∈ primaryOwners (run ops) name, c1 = c2) := by
  have hinv : ExclusiveOwners (run ops) := foldl_step_exclusive ops [] (fun _ => by simp)
  have hlen : (primaryOwners (run ops) name).length ≤ 1 := by
    unfold primaryOwners
    rw [List.length_map, ← List.countP_eq_length_filter]
    exact hinv name
  refine ⟨hlen, ?_⟩
  intro c1 h1 c2 h2
  match hl : primaryOwners (run ops) name, hlen, h1, h2 with
  | [], _, h1, _ => cases h1
  | [c], _, h1, h2 =>
    rw [List.mem_singleton] at h1 h2
    rw [h1, h2]
  | _ :: _ :: _, hlen, _, _ => simp at hlen

/-- A run of the registry: connection 1 owns "org.x" and allows replacement,
2 and 3 queue up in that order; when 1 releases, 2 is the owner and 3 waits;
when 2 disconnects, 3 is the owner. -/
theorem registry_fifo_promotion :
    primaryOwners (run [RegistryOp.acquire 1 "org.x" KDBUS_NAME_ALLOW_REPLACEMENT true,
      RegistryOp.acquire 2 "org.x" KDBUS_NAME_QUEUE true,
      RegistryOp.acquire 3 "org.x" KDBUS_NAME_QUEUE true]) "org.x" = [1]
    ∧ primaryOwners (run [RegistryOp.acquire 1 "org.x" KDBUS_NAME_ALLOW_REPLACEMENT true,
      RegistryOp.acquire 2 "org.x" KDBUS_NAME_QUEUE true,
      RegistryOp.acquire 3 "org.x" KDBUS_NAME_QUEUE true,
      RegistryOp.release 1 "org.x"]) "org.x" = [2]
    ∧ queueOf (run [RegistryOp.acquire 1 "org.x" KDBUS_NAME_ALLOW_REPLACEMENT true,
      RegistryOp.acquire 2 "org.x" KDBUS_NAME_QUEUE true,
      RegistryOp.acquire 3 "org.x" KDBUS_NAME_QUEUE true,
      RegistryOp.release 1 "org.x"]) "org.x" = [3]
    ∧ primaryOwners (run [RegistryOp.acquire 1 "org.x" KDBUS_NAME_ALLOW_REPLACEMENT true,
      RegistryOp.acquire 2 "org.x" KDBUS_NAME_QUEUE true,
      RegistryOp.acquire 3 "org.x" KDBUS_NAME_QUEUE true,
      RegistryOp.release 1 "org.x", RegistryOp.disconnect 2]) "org.x" = [3]
    ∧ primaryOwners (run [RegistryOp.acquire 1 "org.x" KDBUS_NAME_ALLOW_REPLACEMENT true,
      RegistryOp.acquire 2 "org.x" KDBUS_NAME_REPLACE_EXISTING true]) "org.x" = [2] := by
  refine ⟨by decide, by decide, by decide, by decide, by decide⟩


end Kdbus
